import Mathlib

/-!
Verification of `src/thirdparty_service_highmem_restart.py`.

The script is a manager-node job: it loads an inventory of hosts, probes each
host once over SSH for the state of one systemd service (running / pid / %mem),
freezes the list of running hosts, and then, for each running host whose memory
exceeds a threshold, applies a high-availability quorum gate before invoking a
remote restart; every successful restart writes a marker file.

The embedding below is shallow: strings are `List Char` (ASCII, which covers
every string the script manipulates), the remote transport is an oracle
`Env` mapping a host to the (exit code, combined stdout+stderr) pair its
probe / restart invocation returns, and the filesystem interaction of the
inventory loader is a `FileStatus` value.  Python's `re.search` on the one
pattern the script uses (`\bKEY=([0-9]+)\b`) is modelled directly as a
left-to-right scan with word-boundary checks.
-/

namespace HighmemRestart

/-- Strings as lists of characters. -/
abbrev Str := List Char

/-! ## Configuration constants (src lines 48-62) -/

/-- `INVENTORY = ["192.168.56.11", "192.168.56.12"]` (src line 48). -/
def INVENTORY : List Str := ["192.168.56.11".data, "192.168.56.12".data]

/-- `SERVICE_NAME = "memhog"` (src line 55). -/
def SERVICE_NAME : Str := "memhog".data

/-- `MEM_THRESHOLD = 60` (src line 56). -/
def MEM_THRESHOLD : Nat := 60

/-- `MIN_OTHER_RUNNING_NODES = 1` (src line 58). -/
def MIN_OTHER_RUNNING_NODES : Nat := 1

/-- The two integer configuration values the decision core reads
(`MEM_THRESHOLD`, `MIN_OTHER_RUNNING_NODES`).  The script reads them as
module-level constants; the embedding passes them explicitly so that the
spec scenarios (which vary them) can be stated. -/
structure Config where
  threshold : Nat
  minOtherRunning : Nat
deriving DecidableEq

/-- The constants as configured in the source file. -/
def defaultConfig : Config := { threshold := MEM_THRESHOLD, minOtherRunning := MIN_OTHER_RUNNING_NODES }

/-! ## Regex model for `parse_int_kv` (src lines 106-111)

`parse_int_kv(output, key)` runs `re.search(rf"\b{key}=([0-9]+)\b", output)`
and returns the captured integer or `None`.  The keys used are `pid` and
`mem`, both made of word characters, so the leading `\b` holds exactly when
the previous character is absent or not a word character.  The trailing `\b`
after the greedy `([0-9]+)` holds exactly when the maximal digit run after
`=` is nonempty and followed by end-of-string or a non-word character
(backtracking inside a digit run can never create a boundary). -/

/-- Python regex word character, ASCII fragment: `[A-Za-z0-9_]`. -/
def isWordChar (c : Char) : Bool := c.isAlphanum || c = '_'

/-- Strip a literal pattern from the front of a string. -/
def stripLit : Str → Str → Option Str
  | [], s => some s
  | _ :: _, [] => none
  | p :: ps, c :: cs => if c = p then stripLit ps cs else none

/-- Split off the maximal leading run of ASCII digits. -/
def spanDigits : Str → Str × Str
  | [] => ([], [])
  | c :: cs =>
    if c.isDigit then
      let r := spanDigits cs
      (c :: r.1, r.2)
    else ([], c :: cs)

/-- Decimal value of a digit string. -/
def digitsToNat (ds : Str) : Nat :=
  ds.foldl (fun n c => n * 10 + (c.toNat - 48)) 0

/-- Attempt to match `key=([0-9]+)\b` starting exactly at the head of `s`
(the leading `\b` is checked by the caller). -/
def kvMatchAt (key : Str) (s : Str) : Option Nat :=
  match stripLit key s with
  | none => none
  | some afterKey =>
    match stripLit ['='] afterKey with
    | none => none
    | some afterEq =>
      let p := spanDigits afterEq
      if p.1 = [] then none
      else
        match p.2 with
        | [] => some (digitsToNat p.1)
        | c :: _ => if isWordChar c then none else some (digitsToNat p.1)

/-- Left-to-right scan of `re.search`: `prevWord` records whether the
character before the current position is a word character (false at the
start of the string). -/
def kvSearchAux (key : Str) (prevWord : Bool) : Str → Option Nat
  | [] => none
  | c :: cs =>
    match (if prevWord then none else kvMatchAt key (c :: cs)) with
    | some n => some n
    | none => kvSearchAux key (isWordChar c) cs

/-- `parse_int_kv(output, key)` (src lines 106-111): first match of
`\bkey=([0-9]+)\b` in `output`, as an integer, else `None`. -/
def parse_int_kv (output : Str) (key : Str) : Option Nat :=
  kvSearchAux key false output

/-! ## Substring containment (Python's `"STATE running" in out`) -/

/-- Does `s` start with `p`? -/
def startsWithLit : Str → Str → Bool
  | _, [] => true
  | [], _ :: _ => false
  | c :: cs, p :: ps => c = p && startsWithLit cs ps

/-- Python `needle in hay` for strings: some contiguous substring of `hay`
equals `needle`. -/
def strContains : Str → Str → Bool
  | s, needle =>
    match s with
    | [] => startsWithLit [] needle
    | c :: cs => startsWithLit (c :: cs) needle || strContains cs needle

/-! ## Remote prober (src lines 179-197) -/

/-- The per-host record the probe loop stores in `states` (src lines
183-197). -/
structure HostState where
  running : Bool
  pid : Option Nat
  mem : Option Nat
  raw : Str
  rc : Int
deriving DecidableEq

/-- Classification of one probe result (src lines 182-197): `running` is
true exactly when the exit code is 0 and the output contains the substring
`"STATE running"`; in that case `pid` and `mem` are parsed independently by
`parse_int_kv` (each may be `None`); otherwise all parsed fields are
`None`. -/
def classifyProbe (rc : Int) (out : Str) : HostState :=
  if rc = 0 && strContains out ("STATE running".data) then
    { running := true
      pid := parse_int_kv out ("pid".data)
      mem := parse_int_kv out ("mem".data)
      raw := out
      rc := rc }
  else
    { running := false, pid := none, mem := none, raw := out, rc := rc }

/-- The remote transport, as an oracle: `probe h` / `restart h` are the
(exit code, stripped stdout+stderr) of the corresponding `ssh` invocation
(src lines 114-130).  Each is invoked at most a bounded number of times per
run; modelling them as functions fixes the result a given invocation
returns. -/
structure Env where
  probe : Str → Int × Str
  restart : Str → Int × Str

/-- The `states[host]` entry after the probe phase (src lines 179-197). -/
def probeState (env : Env) (h : Str) : HostState :=
  classifyProbe (env.probe h).1 (env.probe h).2

/-! ## Fleet snapshot (src lines 202-204)

`running_hosts = [h for h, s in states.items() if s["running"]]`: the keys of
a Python dict iterate in insertion order, i.e. in order of each host's first
occurrence in the inventory list. -/

/-- Insertion-order keys of the `states` dict: the hosts in inventory order
with later duplicate occurrences removed. -/
def dedupFirst (seen : List Str) : List Str → List Str
  | [] => []
  | h :: t => if h ∈ seen then dedupFirst seen t else h :: dedupFirst (h :: seen) t

/-- `running_hosts` (src line 202): computed once, after the probe loop. -/
def runningList (env : Env) (hosts : List Str) : List Str :=
  (dedupFirst [] hosts).filter (fun h => (probeState env h).running)

/-! ## Safety gate (src lines 215-232)

The decision branch of the restart loop, as the pure function the spec calls
the Safety Gate.  The branch order in the source is: unknown memory, at or
below threshold, quorum check, allow. -/

/-- Outcome of the gate for one running host. -/
inductive GateOutcome where
  | ok
  | skipUnknownMem
  | skipQuorum
  | allow
deriving DecidableEq

/-- `other_running = [h for h in running_hosts if h != host]` (src line 224). -/
def otherRunning (running : List Str) (host : Str) : List Str :=
  running.filter (fun h => h ≠ host)

/-- The gate decision for a running host (src lines 215-232). -/
def gateDecide (cfg : Config) (host : Str) (mem : Option Nat) (running : List Str) : GateOutcome :=
  match mem with
  | none => .skipUnknownMem
  | some m =>
    if m ≤ cfg.threshold then .ok
    else if (otherRunning running host).length < cfg.minOtherRunning then .skipQuorum
    else .allow

/-- The gate evaluations performed by the restart loop (src lines 210-232),
in order: one per occurrence of a running host in the inventory list, each
consulting the single frozen `running_hosts` list. -/
def gateDecisions (cfg : Config) (env : Env) (hosts : List Str) : List (Str × GateOutcome) :=
  (hosts.filter (fun h => (probeState env h).running)).map
    (fun h => (h, gateDecide cfg h (probeState env h).mem (runningList env hosts)))

/-- The sequence of hosts on which the restart capability is invoked
(src line 233), in order: the occurrences in the inventory list that are
running and for which the gate allows. -/
def restartAttempts (cfg : Config) (env : Env) (hosts : List Str) : List Str :=
  hosts.filter (fun h =>
    (probeState env h).running &&
      decide (gateDecide cfg h (probeState env h).mem (runningList env hosts) = .allow))

/-! ## Marker writer (src lines 132-154) -/

/-- The character of one decimal digit. -/
def digitChar (d : Nat) : Char :=
  if d = 0 then '0' else if d = 1 then '1' else if d = 2 then '2' else if d = 3 then '3'
  else if d = 4 then '4' else if d = 5 then '5' else if d = 6 then '6' else if d = 7 then '7'
  else if d = 8 then '8' else '9'

/-- Decimal digits of `n`, most significant first, prepended to `acc`; the
fuel argument (any value above the digit count) makes the recursion
structural. -/
def natStrCore : Nat → Nat → Str → Str
  | 0, _, acc => acc
  | fuel + 1, n, acc =>
    if n < 10 then digitChar (n % 10) :: acc
    else natStrCore fuel (n / 10) (digitChar (n % 10) :: acc)

/-- Decimal representation of a natural number (Python's `f"{mem}"`). -/
def natStr (n : Nat) : Str := natStrCore (n + 1) n []

/-- `host.replace(":", "_").replace("/", "_").replace(" ", "_")` (src line
136).  The three replaced characters are distinct and the replacement `_` is
not among the later targets, so the sequential replaces equal one map. -/
def sanitizeHost (h : Str) : Str :=
  h.map (fun c => if c = ':' || c = '/' || c = ' ' then '_' else c)

/-- `mem_part` (src line 134): `f"mem{mem}"` when the value is known, else
`"mem_unknown"`. -/
def memPart : Option Nat → Str
  | some m => "mem".data ++ natStr m
  | none => "mem_unknown".data

/-- The marker filename (src line 137):
`f"{host_safe}_{run_id}_{mem_part}.txt"`. -/
def markerFilename (host runId : Str) (mem : Option Nat) : Str :=
  sanitizeHost host ++ ('_' :: runId) ++ ('_' :: memPart mem) ++ ".txt".data

/-- The `memory_percent=` line of the marker body (src line 146): the value
when known, the literal `unknown` otherwise. -/
def memoryPercentLine : Option Nat → Str
  | some m => "memory_percent=".data ++ natStr m
  | none => "memory_percent=unknown".data

/-- The `pid=` line of the marker body (src line 147). -/
def pidLine : Option Nat → Str
  | some p => "pid=".data ++ natStr p
  | none => "pid=unknown".data

/-- A marker record as `write_marker` produces it (src lines 132-154):
the file path (relative to `TRIGGERS_DIR`) plus the content lines. -/
structure Marker where
  host : Str
  runId : Str
  mem : Option Nat
  pid : Option Nat
  note : Str
  filename : Str
  contentLines : List Str
deriving DecidableEq

/-- `write_marker(host, run_id, mem, pid, note)` (src lines 132-154). -/
def write_marker (cfg : Config) (host runId : Str) (mem pid : Option Nat) (note : Str) : Marker :=
  { host := host
    runId := runId
    mem := mem
    pid := pid
    note := note
    filename := markerFilename host runId mem
    contentLines :=
      [ "timestamp_utc=".data ++ runId
      , "host=".data ++ host
      , "service=".data ++ SERVICE_NAME
      , "threshold_percent=".data ++ natStr cfg.threshold
      , memoryPercentLine mem
      , pidLine pid
      , "action=restart".data
      , "note=".data ++ note
      , [] ] }

/-- The `note=` argument main passes to `write_marker` (src line 243). -/
def restartNote (cfg : Config) (mem otherCount : Nat) : Str :=
  "Restarted because mem=".data ++ natStr mem ++ "% > ".data ++ natStr cfg.threshold
    ++ "%, other_running=".data ++ natStr otherCount

/-- The markers written during the run (src lines 237-245): one per restart
attempt whose invocation returned exit code 0, in attempt order, built from
the probed `mem`/`pid` of that host. -/
def runMarkers (cfg : Config) (env : Env) (hosts : List Str) (runId : Str) : List Marker :=
  (restartAttempts cfg env hosts).filterMap (fun h =>
    if (env.restart h).1 = 0 then
      some (write_marker cfg h runId (probeState env h).mem (probeState env h).pid
        (restartNote cfg ((probeState env h).mem.getD 0)
          (otherRunning (runningList env hosts) h).length))
    else none)

/-! ## Inventory loader (src lines 94-103)

`load_hosts` checks `os.path.exists(INVENTORY_FILE)` and then opens the
file.  The filesystem is modelled by a `FileStatus`: the path may be absent,
present but unreadable (in which case `open()` raises and the exception
propagates out of `load_hosts` — there is no handler), or readable with a
list of lines (as iterating the file object yields them). -/

/-- State of the configured inventory file. -/
inductive FileStatus where
  | missing
  | unreadable
  | content (lns : List Str)

/-- Provenance tag of the host list. -/
inductive Source where
  | file
  | array
deriving DecidableEq

/-- Python's `str.strip()` whitespace set, ASCII fragment. -/
def isPySpace (c : Char) : Bool :=
  c = ' ' || c = '\t' || c = '\n' || c = '\x0d' || c = '\x0b' || c = '\x0c'

/-- `ln.strip()`. -/
def pyStrip (s : Str) : Str :=
  ((s.dropWhile isPySpace).reverse.dropWhile isPySpace).reverse

/-- The comprehension of src line 100: keep each stripped line that is
nonempty and does not start with `#`. -/
def goodLines (lns : List Str) : List Str :=
  lns.filterMap (fun ln =>
    let t := pyStrip ln
    match t with
    | [] => none
    | c :: cs => if c = '#' then none else some (c :: cs))

/-- `load_hosts()` (src lines 94-103).  `Except.error ()` marks the
propagated `OSError` of a failed `open()` on an existing file. -/
def load_hosts (fs : FileStatus) (fallback : List Str) : Except Unit (List Str × Source) :=
  match fs with
  | .missing => .ok (fallback, .array)
  | .unreadable => .error ()
  | .content lns =>
    match goodLines lns with
    | [] => .ok (fallback, .array)
    | h :: t => .ok (h :: t, .file)

/-! ## Shared lemmas -/

/-- The probe phase of two environments with the same probe capability
stores the same `states`. -/
theorem probeState_congr (e1 e2 : Env) (hp : e1.probe = e2.probe) :
    probeState e1 = probeState e2 := by
  funext h
  simp [probeState, hp]

/-- A host whose gate decision is not `allow` is never passed to the
restart capability. -/
theorem not_restart_of_gate_ne (cfg : Config) (env : Env) (hosts : List Str) (host : Str)
    (hg : gateDecide cfg host (probeState env host).mem (runningList env hosts) ≠ .allow) :
    host ∉ restartAttempts cfg env hosts := by
  intro hmem
  rw [restartAttempts, List.mem_filter] at hmem
  rcases hmem with ⟨-, hp⟩
  rw [Bool.and_eq_true, decide_eq_true_eq] at hp
  exact hg hp.2

/-- Gate decision when memory is strictly above the threshold and quorum
holds. -/
theorem gateDecide_allow (cfg : Config) (host : Str) (m : Nat) (running : List Str)
    (hthr : cfg.threshold < m)
    (hq : cfg.minOtherRunning ≤ (otherRunning running host).length) :
    gateDecide cfg host (some m) running = .allow := by
  simp [gateDecide, Nat.not_le.mpr hthr, Nat.not_lt.mpr hq]

/-! ## Claims -/

/-- C1: Snapshot stability.  The running-host set is derived from the probe
results alone and is consulted unchanged by every gate evaluation and by the
restart selection: two runs whose probe capability agrees — however their
restart capability behaves — produce the same frozen running list, the same
sequence of gate decisions, and the same sequence of restart attempts. -/
theorem snapshot_stability (cfg : Config) (e1 e2 : Env) (hosts : List Str)
    (hp : e1.probe = e2.probe) :
    runningList e1 hosts = runningList e2 hosts ∧
    gateDecisions cfg e1 hosts = gateDecisions cfg e2 hosts ∧
    restartAttempts cfg e1 hosts = restartAttempts cfg e2 hosts := by
  have hs : probeState e1 = probeState e2 := probeState_congr e1 e2 hp
  refine ⟨?_, ?_, ?_⟩ <;> simp only [runningList, gateDecisions, restartAttempts, hs]

/-- Probe oracle used by the C1 witness: every host reports running at 70%
memory. -/
def probeStable : Str → Int × Str :=
  fun _ => (0, "STATE running service=memhog pid=7 mem=70".data)

/-- Environment whose restarts succeed. -/
def envStableOk : Env :=
  { probe := probeStable, restart := fun _ => (0, "RESTARTED service=memhog".data) }

/-- Environment whose restarts all fail. -/
def envStableFail : Env :=
  { probe := probeStable, restart := fun _ => (1, "boom".data) }

/-- C1 witness: a concrete two-host fleet probed identically under a
restart capability that succeeds and one that fails yields identical frozen
sets, decisions and attempts. -/
theorem snapshot_stability_witness :
    runningList envStableOk ["h1".data, "h2".data] = runningList envStableFail ["h1".data, "h2".data] ∧
    gateDecisions defaultConfig envStableOk ["h1".data, "h2".data] =
      gateDecisions defaultConfig envStableFail ["h1".data, "h2".data] ∧
    restartAttempts defaultConfig envStableOk ["h1".data, "h2".data] =
      restartAttempts defaultConfig envStableFail ["h1".data, "h2".data] :=
  snapshot_stability defaultConfig envStableOk envStableFail ["h1".data, "h2".data] rfl

/-- C6: Self-exclusion.  The quorum list the gate consults for a host is the
frozen running list with that host itself removed: the host never appears in
it and never contributes to its count, every other host's membership and
multiplicity are untouched, and prepending the host itself to the running
list cannot change any of its own gate decisions. -/
theorem gate_self_exclusion (running : List Str) (host g : Str) (hne : g ≠ host) :
    host ∉ otherRunning running host ∧
    (otherRunning running host).count host = 0 ∧
    (g ∈ otherRunning running host ↔ g ∈ running) ∧
    (otherRunning running host).count g = running.count g ∧
    (∀ (cfg : Config) (mem : Option Nat),
      gateDecide cfg host mem (host :: running) = gateDecide cfg host mem running) := by
  refine ⟨?_, ?_, ?_, ?_, ?_⟩
  · intro hmem
    rw [otherRunning, List.mem_filter, decide_eq_true_eq] at hmem
    exact hmem.2 rfl
  · rw [List.count_eq_zero]
    intro hmem
    rw [otherRunning, List.mem_filter, decide_eq_true_eq] at hmem
    exact hmem.2 rfl
  · rw [otherRunning, List.mem_filter, decide_eq_true_eq]
    exact ⟨fun h => h.1, fun h => ⟨h, hne⟩⟩
  · exact List.count_filter (by simp [hne])
  · intro cfg mem
    have hfilter : otherRunning (host :: running) host = otherRunning running host := by
      simp [otherRunning, List.filter_cons]
    simp [gateDecide, hfilter]

/-- C6 witness: instantiation on the two-host running list `[A, B]`. -/
theorem gate_self_exclusion_witness :
    "A".data ∉ otherRunning ["A".data, "B".data] ("A".data) ∧
    (otherRunning ["A".data, "B".data] ("A".data)).count ("A".data) = 0 ∧
    ("B".data ∈ otherRunning ["A".data, "B".data] ("A".data) ↔ "B".data ∈ ["A".data, "B".data]) ∧
    (otherRunning ["A".data, "B".data] ("A".data)).count ("B".data) = ["A".data, "B".data].count ("B".data) ∧
    (∀ (cfg : Config) (mem : Option Nat),
      gateDecide cfg ("A".data) mem ("A".data :: ["A".data, "B".data]) =
        gateDecide cfg ("A".data) mem ["A".data, "B".data]) :=
  gate_self_exclusion ["A".data, "B".data] ("A".data) ("B".data) (by decide)

/-- C3: A running host with known memory above the threshold whose
other-running count is below the minimum gets outcome skip-quorum and is
never passed to the restart capability in that run. -/
theorem quorum_skip_no_restart (cfg : Config) (env : Env) (hosts : List Str) (host : Str) (m : Nat)
    (hrun : (probeState env host).running = true)
    (hmem : (probeState env host).mem = some m)
    (hthr : cfg.threshold < m)
    (hq : (otherRunning (runningList env hosts) host).length < cfg.minOtherRunning) :
    gateDecide cfg host (probeState env host).mem (runningList env hosts) = .skipQuorum ∧
    host ∉ restartAttempts cfg env hosts := by
  have hskip : gateDecide cfg host (probeState env host).mem (runningList env hosts) = .skipQuorum := by
    rw [hmem]
    simp [gateDecide, Nat.not_le.mpr hthr, hq]
  exact ⟨hskip, not_restart_of_gate_ne cfg env hosts host (by rw [hskip]; intro h; cases h)⟩

/-- Probe oracle of spec Scenario 2: `A` running at 80%, `B` and `C`
stopped. -/
def probeScenario2 : Str → Int × Str :=
  fun h =>
    if h = "A".data then (0, "STATE running service=memhog pid=21 mem=80".data)
    else (0, "STATE stopped service=memhog".data)

/-- Scenario 2 environment (restarts would succeed, but none is allowed). -/
def envScenario2 : Env :=
  { probe := probeScenario2, restart := fun _ => (0, "RESTARTED service=memhog".data) }

/-- C3 witness: spec Scenario 2 — `A` at 80% > 60 with zero other running
hosts is skip-quorum and not restarted. -/
theorem quorum_skip_no_restart_witness :
    gateDecide defaultConfig ("A".data) (probeState envScenario2 ("A".data)).mem
        (runningList envScenario2 ["A".data, "B".data, "C".data]) = .skipQuorum ∧
    "A".data ∉ restartAttempts defaultConfig envScenario2 ["A".data, "B".data, "C".data] :=
  quorum_skip_no_restart defaultConfig envScenario2 ["A".data, "B".data, "C".data] ("A".data) 80
    (by decide) (by decide) (by decide) (by decide)

/-- C7: A running host with known memory at or below the threshold gets
outcome ok, and a running host with unknown memory gets outcome
skip-unknown-memory; in both cases the restart capability is never invoked
for that host in that run. -/
theorem ok_and_unknown_mem_no_restart (cfg : Config) (env : Env) (hosts : List Str) (host : Str)
    (hrun : (probeState env host).running = true) :
    (∀ m, (probeState env host).mem = some m → m ≤ cfg.threshold →
      gateDecide cfg host (probeState env host).mem (runningList env hosts) = .ok ∧
      host ∉ restartAttempts cfg env hosts) ∧
    ((probeState env host).mem = none →
      gateDecide cfg host (probeState env host).mem (runningList env hosts) = .skipUnknownMem ∧
      host ∉ restartAttempts cfg env hosts) := by
  constructor
  · intro m hmem hle
    have hok : gateDecide cfg host (probeState env host).mem (runningList env hosts) = .ok := by
      rw [hmem]
      simp [gateDecide, hle]
    exact ⟨hok, not_restart_of_gate_ne cfg env hosts host (by rw [hok]; intro h; cases h)⟩
  · intro hmem
    have hunk : gateDecide cfg host (probeState env host).mem (runningList env hosts) = .skipUnknownMem := by
      rw [hmem]
      simp [gateDecide]
    exact ⟨hunk, not_restart_of_gate_ne cfg env hosts host (by rw [hunk]; intro h; cases h)⟩

/-- Probe oracle for the C7 witness: `A` running at 50%, `E` running with no
parsable memory value (spec Scenario 4). -/
def probeOkUnknown : Str → Int × Str :=
  fun h =>
    if h = "A".data then (0, "STATE running service=memhog pid=31 mem=50".data)
    else (0, "STATE running service=memhog".data)

/-- Environment for the C7 witness. -/
def envOkUnknown : Env :=
  { probe := probeOkUnknown, restart := fun _ => (0, "RESTARTED service=memhog".data) }

/-- C7 witness: host `A` at 50% ≤ 60 is ok and not restarted; host `E` with
unknown memory is skip-unknown-memory and not restarted. -/
theorem ok_and_unknown_mem_no_restart_witness :
    (gateDecide defaultConfig ("A".data) (probeState envOkUnknown ("A".data)).mem
        (runningList envOkUnknown ["A".data, "E".data]) = .ok ∧
      "A".data ∉ restartAttempts defaultConfig envOkUnknown ["A".data, "E".data]) ∧
    (gateDecide defaultConfig ("E".data) (probeState envOkUnknown ("E".data)).mem
        (runningList envOkUnknown ["A".data, "E".data]) = .skipUnknownMem ∧
      "E".data ∉ restartAttempts defaultConfig envOkUnknown ["A".data, "E".data]) :=
  ⟨(ok_and_unknown_mem_no_restart defaultConfig envOkUnknown ["A".data, "E".data] ("A".data)
      (by decide)).1 50 (by decide) (by decide),
   (ok_and_unknown_mem_no_restart defaultConfig envOkUnknown ["A".data, "E".data] ("E".data)
      (by decide)).2 (by decide)⟩

/-- Probe oracle for the C2 analysis: `dup` running at 90%, `other` running
at 10%. -/
def probeDup : Str → Int × Str :=
  fun h =>
    if h = "other".data then (0, "STATE running service=memhog pid=12 mem=10".data)
    else (0, "STATE running service=memhog pid=11 mem=90".data)

/-- Environment for the C2 analysis; restarts succeed. -/
def envDup : Env :=
  { probe := probeDup, restart := fun _ => (0, "RESTARTED service=memhog".data) }

/-- An inventory in which the host `dup` appears twice (nothing in
`load_hosts` removes duplicate inventory lines). -/
def hostsDup : List Str := ["dup".data, "dup".data, "other".data]

/-- C2 counterexample: with an inventory listing host `dup` twice, `dup`
is running at 90% > 60 with one other running host (quorum satisfied), yet
the run invokes the restart capability on `dup` twice — the restart loop
iterates over inventory occurrences, so "exactly once per host per run"
fails. -/
theorem restart_once_counterexample :
    (probeState envDup ("dup".data)).running = true ∧
    (probeState envDup ("dup".data)).mem = some 90 ∧
    defaultConfig.threshold < 90 ∧
    defaultConfig.minOtherRunning ≤
      (otherRunning (runningList envDup hostsDup) ("dup".data)).length ∧
    (restartAttempts defaultConfig envDup hostsDup).count ("dup".data) = 2 := by
  decide

/-- C2 (amended): for a host that appears exactly once in the inventory and
is probed running with known memory above the threshold and enough other
running hosts, the gate allows and the restart capability is invoked for it
exactly once in the run (no retry); in general the number of invocations
equals the host's number of inventory occurrences. -/
theorem restart_exactly_once (cfg : Config) (env : Env) (hosts : List Str) (host : Str) (m : Nat)
    (honce : hosts.count host = 1)
    (hrun : (probeState env host).running = true)
    (hmem : (probeState env host).mem = some m)
    (hthr : cfg.threshold < m)
    (hq : cfg.minOtherRunning ≤ (otherRunning (runningList env hosts) host).length) :
    gateDecide cfg host (probeState env host).mem (runningList env hosts) = .allow ∧
    (restartAttempts cfg env hosts).count host = 1 := by
  have hallow : gateDecide cfg host (probeState env host).mem (runningList env hosts) = .allow := by
    rw [hmem]
    exact gateDecide_allow cfg host m (runningList env hosts) hthr hq
  refine ⟨hallow, ?_⟩
  rw [restartAttempts, List.count_filter (by simp [hrun, hallow]), honce]

/-- A duplicate-free inventory for the C2 witness. -/
def hostsOnce : List Str := ["dup".data, "other".data]

/-- C2 witness: on the duplicate-free inventory the same over-threshold host
is allowed and restarted exactly once. -/
theorem restart_exactly_once_witness :
    gateDecide defaultConfig ("dup".data) (probeState envDup ("dup".data)).mem
        (runningList envDup hostsOnce) = .allow ∧
    (restartAttempts defaultConfig envDup hostsOnce).count ("dup".data) = 1 :=
  restart_exactly_once defaultConfig envDup hostsOnce ("dup".data) 90
    (by decide) (by decide) (by decide) (by decide) (by decide)

/-- Environment whose restart invocations return exit code 0 with empty
output (no `RESTARTED service=...` acknowledgement). -/
def envRcZero : Env :=
  { probe := probeDup, restart := fun _ => (0, []) }

/-- C4 counterexample: host `dup` is allowed and its restart invocation
returns exit code 0 with output that does not contain
`RESTARTED service=memhog`; the claim calls this a failure and requires no
marker, yet the run writes one — the code checks only the exit code. -/
theorem marker_success_counterexample :
    (∃ mk ∈ runMarkers defaultConfig envRcZero hostsOnce ("20250101T000000Z".data),
      mk.host = "dup".data) ∧
    strContains (envRcZero.restart ("dup".data)).2 ("RESTARTED service=".data ++ SERVICE_NAME)
      = false := by
  decide

/-- C4 (amended): a marker for a host is written in a run exactly when a
restart was attempted on that host and the restart invocation returned exit
code 0 — the invocation's output is logged but plays no part in the
success test. -/
theorem marker_iff_exit_zero (cfg : Config) (env : Env) (hosts : List Str) (runId host : Str) :
    (∃ mk ∈ runMarkers cfg env hosts runId, mk.host = host) ↔
      (host ∈ restartAttempts cfg env hosts ∧ (env.restart host).1 = 0) := by
  constructor
  · rintro ⟨mk, hmk, hhost⟩
    rw [runMarkers, List.mem_filterMap] at hmk
    rcases hmk with ⟨a, ha, hf⟩
    by_cases hrc : (env.restart a).1 = 0
    · rw [if_pos hrc, Option.some_inj] at hf
      subst hf
      simp only [write_marker] at hhost
      subst hhost
      exact ⟨ha, hrc⟩
    · rw [if_neg hrc] at hf
      cases hf
  · rintro ⟨ha, hrc⟩
    refine ⟨write_marker cfg host runId (probeState env host).mem (probeState env host).pid
        (restartNote cfg ((probeState env host).mem.getD 0)
          (otherRunning (runningList env hosts) host).length), ?_, rfl⟩
    rw [runMarkers, List.mem_filterMap]
    exact ⟨host, ha, by rw [if_pos hrc]⟩

/-- Every character `digitChar` produces for a value below 10 is an ASCII
digit. -/
theorem digitChar_isDigit (d : Nat) (hd : d < 10) : (digitChar d).isDigit = true := by
  interval_cases d <;> decide

/-- Every character of `natStrCore` output is a digit, provided the
accumulator holds only digits. -/
theorem natStrCore_all_digit :
    ∀ (fuel n : Nat) (acc : Str), (∀ c ∈ acc, c.isDigit = true) →
      ∀ c ∈ natStrCore fuel n acc, c.isDigit = true := by
  intro fuel
  induction fuel with
  | zero => intro n acc hacc c hc; exact hacc c hc
  | succ fuel ih =>
    intro n acc hacc c hc
    have hcons : ∀ x ∈ digitChar (n % 10) :: acc, x.isDigit = true := by
      intro x hx
      rcases List.mem_cons.mp hx with hx | hx
      · rw [hx]; exact digitChar_isDigit _ (Nat.mod_lt n (by decide))
      · exact hacc x hx
    rw [natStrCore] at hc
    by_cases hn : n < 10
    · rw [if_pos hn] at hc
      exact hcons c hc
    · rw [if_neg hn] at hc
      exact ih (n / 10) _ hcons c hc

/-- Every character of the decimal rendering of a natural number is a
digit. -/
theorem natStr_all_digit (n : Nat) : ∀ c ∈ natStr n, c.isDigit = true :=
  natStrCore_all_digit (n + 1) n [] (by intro c hc; cases hc)

/-- The decimal rendering of a number is never the string `_unknown`. -/
theorem natStr_ne_underscore_unknown (n : Nat) : natStr n ≠ "_unknown".data := by
  intro h
  have hm : '_' ∈ natStr n := by rw [h]; decide
  have := natStr_all_digit n '_' hm
  simp at this

/-- The decimal rendering of a number is never the string `unknown`. -/
theorem natStr_ne_unknown (n : Nat) : natStr n ≠ "unknown".data := by
  intro h
  have hm : 'u' ∈ natStr n := by rw [h]; decide
  have := natStr_all_digit n 'u' hm
  simp at this

/-- A restart attempt implies the probed memory was known and above the
threshold. -/
theorem mem_of_restartAttempt (cfg : Config) (env : Env) (hosts : List Str) (a : Str)
    (ha : a ∈ restartAttempts cfg env hosts) :
    ∃ m, (probeState env a).mem = some m ∧ cfg.threshold < m := by
  rw [restartAttempts, List.mem_filter, Bool.and_eq_true, decide_eq_true_eq] at ha
  rcases ha with ⟨-, -, hallow⟩
  cases hm : (probeState env a).mem with
  | none => rw [hm] at hallow; cases hallow
  | some m =>
    refine ⟨m, rfl, ?_⟩
    rw [hm] at hallow
    by_cases hle : m ≤ cfg.threshold
    · rw [gateDecide, if_pos hle] at hallow
      cases hallow
    · exact Nat.not_le.mp hle

/-- C9: every marker the run writes carries a known memory value, namely the
probed value that triggered the restart, which is above the threshold; in
particular the `mem_unknown` filename branch and the
`memory_percent=unknown` content line of `write_marker` are never taken by a
marker written from `main`. -/
theorem markers_have_known_mem (cfg : Config) (env : Env) (hosts : List Str) (runId : Str) :
    ∀ mk ∈ runMarkers cfg env hosts runId,
      ∃ m, mk.mem = some m ∧ cfg.threshold < m ∧
        mk.mem = (probeState env mk.host).mem ∧
        memPart mk.mem = "mem".data ++ natStr m ∧
        memPart mk.mem ≠ "mem_unknown".data ∧
        memoryPercentLine mk.mem = "memory_percent=".data ++ natStr m ∧
        memoryPercentLine mk.mem ≠ "memory_percent=unknown".data ∧
        mk.filename = markerFilename mk.host runId (some m) := by
  intro mk hmk
  rw [runMarkers, List.mem_filterMap] at hmk
  rcases hmk with ⟨a, ha, hf⟩
  by_cases hrc : (env.restart a).1 = 0
  · rw [if_pos hrc, Option.some_inj] at hf
    rcases mem_of_restartAttempt cfg env hosts a ha with ⟨m, hm, hthr⟩
    subst hf
    refine ⟨m, ?_, hthr, ?_, ?_, ?_, ?_, ?_, ?_⟩
    · simp only [write_marker]; exact hm
    · simp only [write_marker]
    · simp only [write_marker, hm, memPart]
    · simp only [write_marker, hm]
      intro h
      exact natStr_ne_underscore_unknown m (List.append_cancel_left h)
    · simp only [write_marker, hm, memoryPercentLine]
    · simp only [write_marker, hm, memoryPercentLine]
      intro h
      exact natStr_ne_unknown m (List.append_cancel_left h)
    · simp only [write_marker, hm]
  · rw [if_neg hrc] at hf
    cases hf

/-- Run id used by the C9 witness. -/
def ridKnown : Str := "20250102T000000Z".data

/-- The marker the C9 witness run writes for host `dup`. -/
def mkKnown : Marker :=
  write_marker defaultConfig ("dup".data) ridKnown (some 90) (some 11)
    (restartNote defaultConfig 90 1)

/-- C9 witness: the marker written for host `dup` in a concrete run carries
memory 90 > 60 and the known-memory filename and content line. -/
theorem markers_have_known_mem_witness :
    ∃ m, mkKnown.mem = some m ∧ defaultConfig.threshold < m ∧
      mkKnown.mem = (probeState envDup mkKnown.host).mem ∧
      memPart mkKnown.mem = "mem".data ++ natStr m ∧
      memPart mkKnown.mem ≠ "mem_unknown".data ∧
      memoryPercentLine mkKnown.mem = "memory_percent=".data ++ natStr m ∧
      memoryPercentLine mkKnown.mem ≠ "memory_percent=unknown".data ∧
      mkKnown.filename = markerFilename mkKnown.host ridKnown (some m) :=
  markers_have_known_mem defaultConfig envDup hostsOnce ridKnown mkKnown (by decide)

/-- Probe oracle for the C10 run: every host reports running at 90%. -/
def probeCollide : Str → Int × Str :=
  fun _ => (0, "STATE running service=memhog pid=5 mem=90".data)

/-- Environment for the C10 run; restarts succeed. -/
def envCollide : Env :=
  { probe := probeCollide, restart := fun _ => (0, "RESTARTED service=memhog".data) }

/-- The two distinct hosts whose sanitized names coincide. -/
def hostsCollide : List Str := ["a:b".data, "a/b".data]

/-- Run id used by the C10 run. -/
def ridCollide : Str := "20250103T000000Z".data

/-- C10: marker paths are not injective in the host: the distinct hosts
`a:b` and `a/b` sanitize to the same name, and a run that restarts both at
the same memory value writes two markers for different hosts with the same
filename (so the later write lands on the earlier marker's path). -/
theorem marker_path_not_injective :
    "a:b".data ≠ "a/b".data ∧
    sanitizeHost ("a:b".data) = sanitizeHost ("a/b".data) ∧
    markerFilename ("a:b".data) ridCollide (some 90) =
      markerFilename ("a/b".data) ridCollide (some 90) ∧
    (runMarkers defaultConfig envCollide hostsCollide ridCollide).map Marker.host =
      ["a:b".data, "a/b".data] ∧
    (runMarkers defaultConfig envCollide hostsCollide ridCollide).map Marker.filename =
      [markerFilename ("a:b".data) ridCollide (some 90),
       markerFilename ("a:b".data) ridCollide (some 90)] := by
  decide

/-- C8 counterexample: the loader is not total — on an inventory path that
exists but cannot be opened, `load_hosts` propagates the `open()` error
instead of silently returning the fallback list tagged `array` (the
existence check on src line 98 is the only guard; there is no exception
handler). -/
theorem load_hosts_unreadable_counterexample :
    load_hosts FileStatus.unreadable INVENTORY = Except.error () ∧
    load_hosts FileStatus.unreadable INVENTORY ≠ Except.ok (INVENTORY, Source.array) :=
  ⟨rfl, fun h => Except.noConfusion h⟩

/-- C8 (amended): if the configured file is absent, or readable but yields
no line that is nonempty and non-comment after trimming, the loader returns
the fallback list tagged `array`; if it is readable and yields at least one
such line it returns exactly those trimmed lines in source order tagged
`file`; an existing but unreadable file makes the loader fail rather than
fall back. -/
theorem load_hosts_spec (fallback : List Str) :
    load_hosts .missing fallback = .ok (fallback, .array) ∧
    load_hosts .unreadable fallback = .error () ∧
    (∀ lns, (goodLines lns = [] ↔
      ∀ ln ∈ lns, pyStrip ln = [] ∨ (pyStrip ln).head? = some '#')) ∧
    (∀ lns, goodLines lns = [] → load_hosts (.content lns) fallback = .ok (fallback, .array)) ∧
    (∀ lns, goodLines lns ≠ [] → load_hosts (.content lns) fallback = .ok (goodLines lns, .file)) := by
  refine ⟨rfl, rfl, ?_, ?_, ?_⟩
  · intro lns
    rw [goodLines, List.filterMap_eq_nil_iff]
    apply forall₂_congr
    intro ln _
    cases h : pyStrip ln with
    | nil => simp [h]
    | cons c cs => by_cases hc : c = '#' <;> simp [h, hc]
  · intro lns h
    simp [load_hosts, h]
  · intro lns h
    cases hg : goodLines lns with
    | nil => exact absurd hg h
    | cons a t => simp [load_hosts, hg]

/-- File content for the C8 witness whose every line is blank or a
comment. -/
def lnsBad : List Str := ["# comment".data, "   ".data, "\t".data]

/-- File content for the C8 witness with one good line surrounded by
whitespace. -/
def lnsGood : List Str := ["  h1 \n".data, "# c\n".data]

/-- C8 witness: the loader on a missing file, a comments-only file, and a
file with one good line. -/
theorem load_hosts_spec_witness :
    load_hosts .missing INVENTORY = .ok (INVENTORY, .array) ∧
    load_hosts (.content lnsBad) INVENTORY = .ok (INVENTORY, .array) ∧
    load_hosts (.content lnsGood) INVENTORY = .ok (goodLines lnsGood, .file) ∧
    goodLines lnsGood = ["h1".data] :=
  ⟨(load_hosts_spec INVENTORY).1,
   (load_hosts_spec INVENTORY).2.2.2.1 lnsBad (by decide),
   (load_hosts_spec INVENTORY).2.2.2.2 lnsGood (by decide),
   by decide⟩

/-! ## Lemmas about the regex scan, for the prober claim -/

/-- The word-character state after scanning a list, starting from state
`prev`: true exactly when the character preceding the current position is a
word character. -/
def lastWord (prev : Bool) : Str → Bool
  | [] => prev
  | c :: l => lastWord (isWordChar c) l

/-- Scanning an appended list chains the word-character state. -/
theorem lastWord_append (prev : Bool) (l1 l2 : Str) :
    lastWord prev (l1 ++ l2) = lastWord (lastWord prev l1) l2 := by
  induction l1 generalizing prev with
  | nil => rfl
  | cons c l1 ih => exact ih (isWordChar c)

/-- Stripping a literal from a string that starts with it succeeds. -/
theorem stripLit_append (p r : Str) : stripLit p (p ++ r) = some r := by
  induction p with
  | nil => rfl
  | cons c p ih => simp [stripLit, ih]

/-- A non-word character is not a digit. -/
theorem isDigit_eq_false_of_not_word (c : Char) (h : isWordChar c = false) :
    c.isDigit = false := by
  rw [isWordChar, Bool.or_eq_false_iff] at h
  rcases h with ⟨h1, -⟩
  rw [Char.isAlphanum, Bool.or_eq_false_iff] at h1
  exact h1.2

/-- `spanDigits` splits an all-digit block from a remainder that does not
start with a digit. -/
theorem spanDigits_append :
    ∀ (ds r : Str), ds.all Char.isDigit = true → (r.headD ' ').isDigit = false →
      spanDigits (ds ++ r) = (ds, r) := by
  intro ds
  induction ds with
  | nil =>
    intro r _ hr
    cases r with
    | nil => rfl
    | cons c cs =>
      rw [List.headD_cons] at hr
      simp [spanDigits, hr]
  | cons d ds ih =>
    intro r hall hr
    rw [List.all_cons, Bool.and_eq_true] at hall
    simp [spanDigits, hall.1, ih r hall.2 hr]

/-- `kvMatchAt` succeeds on a well-formed `key=<digits>` occurrence whose
digit run is followed by end-of-string or a non-word character. -/
theorem kvMatchAt_wellFormed (key ds r : Str) (hds : ds ≠ [])
    (hall : ds.all Char.isDigit = true) (hr : isWordChar (r.headD ' ') = false) :
    kvMatchAt key (key ++ '=' :: (ds ++ r)) = some (digitsToNat ds) := by
  have hspan : spanDigits (ds ++ r) = (ds, r) :=
    spanDigits_append ds r hall (by
      cases r with
      | nil => rfl
      | cons c cs =>
        rw [List.headD_cons] at hr
        exact isDigit_eq_false_of_not_word c hr)
  have hstrip : stripLit key (key ++ '=' :: (ds ++ r)) = some ('=' :: (ds ++ r)) :=
    stripLit_append key _
  have heq : stripLit ['='] ('=' :: (ds ++ r)) = some (ds ++ r) := by
    simp [stripLit]
  rw [kvMatchAt]
  simp only [hstrip, heq, hspan]
  rw [if_neg hds]
  cases r with
  | nil => rfl
  | cons c cs =>
    rw [List.headD_cons] at hr
    simp [hr]

/-- No match can start in the empty string. -/
theorem kvMatchAt_nil (key : Str) : kvMatchAt key [] = none := by
  cases key <;> rfl

/-- Completeness of the scan: if a match is possible at the junction of
`l ++ r` and the junction is a word boundary (the state after `l` is
non-word), the scan finds some match. -/
theorem kvSearchAux_append_isSome (key : Str) :
    ∀ (l : Str) (prev : Bool) (r : Str), lastWord prev l = false →
      (kvMatchAt key r).isSome = true → (kvSearchAux key prev (l ++ r)).isSome = true := by
  intro l
  induction l with
  | nil =>
    intro prev r hb hm
    have hprev : prev = false := hb
    subst hprev
    cases r with
    | nil => rw [kvMatchAt_nil] at hm; cases hm
    | cons c cs =>
      rw [List.nil_append]
      cases hmv : kvMatchAt key (c :: cs) with
      | none => rw [hmv] at hm; cases hm
      | some v => simp [kvSearchAux, hmv]
  | cons c l ih =>
    intro prev r hb hm
    rw [List.cons_append]
    cases hmv : (if prev then none else kvMatchAt key (c :: (l ++ r))) with
    | some v => simp [kvSearchAux, hmv]
    | none =>
      simp only [kvSearchAux, hmv]
      exact ih (isWordChar c) r hb hm

/-- The scan state after any list ending in a space is non-word. -/
theorem lastWord_space (prev : Bool) (A : Str) : lastWord prev (A ++ [' ']) = false := by
  rw [lastWord_append]
  rfl

/-- A string starts with its own leading block. -/
theorem startsWithLit_append (s t : Str) : startsWithLit (s ++ t) s = true := by
  induction s with
  | nil => cases t <;> rfl
  | cons c s ih => simp [startsWithLit, ih]

/-- Completeness of substring containment: if some suffix of the haystack
starts with the needle, `strContains` finds it. -/
theorem strContains_of_startsWith :
    ∀ (l rest needle : Str), startsWithLit rest needle = true →
      strContains (l ++ rest) needle = true := by
  intro l
  induction l with
  | nil =>
    intro rest needle h
    cases rest with
    | nil => exact h
    | cons c cs => simp [strContains, h]
  | cons c l ih =>
    intro rest needle h
    simp [strContains, ih rest needle h]

/-- The output contains a line matching the full probe success pattern
`STATE running service=<name> pid=<int> mem=<int>`: the line occurs at the
start of the output or right after a newline, and ends the output or is
followed by a newline. -/
def fullRunningLine (out : Str) : Prop :=
  ∃ l p q r,
    out = l ++ "STATE running".data ++ " service=".data ++ SERVICE_NAME
        ++ [' '] ++ "pid".data ++ ['='] ++ p ++ [' '] ++ "mem".data ++ ['='] ++ q ++ r
    ∧ p ≠ [] ∧ p.all Char.isDigit = true ∧ q ≠ [] ∧ q.all Char.isDigit = true
    ∧ (l = [] ∨ ∃ l2, l = l2 ++ ['\n']) ∧ (r = [] ∨ ∃ r2, r = '\n' :: r2)

/-- C5 counterexample: a probe that exits 0 printing `STATE running
service=memhog` — no line matching the full pattern, since `pid=`/`mem=`
are absent — is classified running=true with pid=None and mem=None; the
claim requires running=false for every output without a full-pattern
match. -/
theorem prober_counterexample :
    (classifyProbe 0 ("STATE running service=memhog".data)).running = true ∧
    (classifyProbe 0 ("STATE running service=memhog".data)).pid = none ∧
    (classifyProbe 0 ("STATE running service=memhog".data)).mem = none := by
  decide

/-- C5 (amended): the prober classifies a host running=true exactly when
the probe exits 0 and its output contains the substring `STATE running`; in
every other case the state is the conservative default (running=false,
pid=None, mem=None); and whenever the output contains a line matching the
full pattern `STATE running service=<name> pid=<int> mem=<int>` (exit 0),
the parsed pid and mem are both present.  The parsed fields are obtained by
independent `\bkey=<digits>\b` searches and may individually be absent when
only the substring occurs. -/
theorem prober_spec (rc : Int) (out : Str) :
    ((rc ≠ 0 ∨ strContains out ("STATE running".data) = false) →
      classifyProbe rc out = { running := false, pid := none, mem := none, raw := out, rc := rc }) ∧
    ((classifyProbe rc out).running = true ↔
      (rc = 0 ∧ strContains out ("STATE running".data) = true)) ∧
    (rc = 0 → fullRunningLine out →
      (classifyProbe rc out).running = true ∧
      ((classifyProbe rc out).pid).isSome = true ∧
      ((classifyProbe rc out).mem).isSome = true) := by
  refine ⟨?_, ?_, ?_⟩
  · rintro (h | h) <;> simp [classifyProbe, h]
  · by_cases hrc : rc = 0 <;> by_cases hsc : strContains out ("STATE running".data) = true <;>
      simp [classifyProbe, hrc, hsc]
  · rintro hrc ⟨l, p, q, r, hout, hp, hpd, hq, hqd, -, hr⟩
    subst hrc
    have hrw : isWordChar (r.headD ' ') = false := by
      rcases hr with rfl | ⟨r2, rfl⟩ <;> rfl
    have hsub : strContains out ("STATE running".data) = true := by
      rw [hout]
      simp only [List.append_assoc]
      exact strContains_of_startsWith l _ _ (startsWithLit_append _ _)
    have hpid : (parse_int_kv out ("pid".data)).isSome = true := by
      have h1 : out = (l ++ "STATE running".data ++ " service=".data ++ SERVICE_NAME ++ [' '])
          ++ ("pid".data ++ '=' :: (p ++ ' ' :: ("mem".data ++ '=' :: (q ++ r)))) := by
        rw [hout]; simp [List.append_assoc]
      rw [parse_int_kv, h1]
      apply kvSearchAux_append_isSome
      · simp only [lastWord_append]; rfl
      · rw [kvMatchAt_wellFormed ("pid".data) p (' ' :: ("mem".data ++ '=' :: (q ++ r)))
          hp hpd rfl]
        rfl
    have hmem : (parse_int_kv out ("mem".data)).isSome = true := by
      have h2 : out = (l ++ "STATE running".data ++ " service=".data ++ SERVICE_NAME ++ [' ']
          ++ "pid".data ++ ['='] ++ p ++ [' ']) ++ ("mem".data ++ '=' :: (q ++ r)) := by
        rw [hout]; simp [List.append_assoc]
      rw [parse_int_kv, h2]
      apply kvSearchAux_append_isSome
      · simp only [lastWord_append]; rfl
      · rw [kvMatchAt_wellFormed ("mem".data) q r hq hqd hrw]
        rfl
    refine ⟨?_, ?_, ?_⟩ <;> simp [classifyProbe, hsub, hpid, hmem]

/-- The full-pattern output used by the C5 witness. -/
def outFull : Str := "STATE running service=memhog pid=11 mem=90".data

/-- C5 witness: a nonzero-exit stopped probe yields the conservative
default, and the canonical full-pattern output yields running with both pid
and mem parsed. -/
theorem prober_spec_witness :
    classifyProbe 2 ("STATE stopped service=memhog".data) =
      { running := false, pid := none, mem := none,
        raw := "STATE stopped service=memhog".data, rc := 2 } ∧
    ((classifyProbe 0 outFull).running = true ∧
      ((classifyProbe 0 outFull).pid).isSome = true ∧
      ((classifyProbe 0 outFull).mem).isSome = true) :=
  ⟨(prober_spec 2 ("STATE stopped service=memhog".data)).1 (Or.inl (by decide)),
   (prober_spec 0 outFull).2.2 rfl
     ⟨[], "11".data, "90".data, [], by decide, by decide, by decide, by decide, by decide,
      Or.inl rfl, Or.inl rfl⟩⟩

end HighmemRestart
